import Mathlib

/-!
Verification of the voice-demo-website submission pipeline.

This file gives a shallow embedding of the TypeScript source under `src/`:

* `src/lib/s3.ts` — `sanitizeFilename`, `generateS3Key`, `getFileSizeInMB`
* `src/lib/voice-enhancement.ts` — `cloneVoice`, `generateEnhancedAudio`,
  `deleteVoice`
* `src/app/api/upload/route.ts` — two handlers: the plain-upload `POST`
  (first document in the file) and the raw-first enhancement `POST`
  (second document); embedded as `plainUploadPOST` and `enhanceUploadPOST`
* `src/app/api/enhance/route.ts` — the `/api/enhance` handler, embedded
  as `enhanceRoutePOST`

External collaborators (S3, ElevenLabs, Slack) are modelled by a `World`
record of oracles: each collaborator call is an `Except String α`
(`.error` = the awaited promise rejected).  Each handler returns the
ordered list of collaborator calls it issued (the trace), the HTTP
response, and the final value of its `clonedVoiceId` variable.
`Date.now()` and the human-readable timestamp are passed in through the
`World` (`now`, `tsStr`); the embedding uses one timestamp per run.
JavaScript strings are Lean `String`s, byte sizes are `Nat`, and
client/provider durations are `ℚ` (`parseFloat` results that are `NaN`
are modelled as `none`).  `Buffer` payloads are tracked by length only,
which is all the handlers inspect.
-/

/-- Character class `[A-Za-z0-9.-]` of `sanitizeFilename`'s first regex,
decided on the code point (`src/lib/s3.ts` line 18). -/
def isAllowedChar (c : Char) : Bool :=
  (65 ≤ c.toNat && c.toNat ≤ 90) || (97 ≤ c.toNat && c.toNat ≤ 122) ||
    (48 ≤ c.toNat && c.toNat ≤ 57) || c = '.' || c = '-'

/-- One character of the first replace step: anything outside the
allowed class becomes a dash. -/
def replaceChar (c : Char) : Char :=
  if isAllowedChar c then c else '-'

/-- The second replace step: collapse every run of `'-'` to a single `'-'`.
The boolean records whether the previously emitted character was `'-'`. -/
def collapseAux : Bool → List Char → List Char
  | _, [] => []
  | prevDash, c :: rest =>
    if c = '-' then
      if prevDash then collapseAux true rest
      else '-' :: collapseAux true rest
    else c :: collapseAux false rest

/-- ASCII `toLowerCase` as it acts on the characters produced by the two
`replace` steps (all ASCII): code points 65–90 are shifted up by 32. -/
def asciiToLower (c : Char) : Char :=
  if 65 ≤ c.toNat && c.toNat ≤ 90 then Char.ofNat (c.toNat + 32) else c

/-- `sanitizeFilename` from `src/lib/s3.ts` lines 16–21:
replace characters outside `[a-zA-Z0-9.-]` with `-`, collapse `-` runs,
lowercase. -/
def sanitizeFilename (s : String) : String :=
  String.mk (((s.data.map replaceChar) |> collapseAux false).map asciiToLower)

/-- `originalFilename.split(".").pop()`: the last `.`-separated segment
(the whole string when there is no dot), computed structurally on the
character list. -/
def lastDotSegment (s : String) : String :=
  String.mk ((s.data.reverse.takeWhile (fun c => ¬ c = '.')).reverse)

/-- `generateS3Key` from `src/lib/s3.ts` lines 26–31, with the
`Date.now()` timestamp passed in. -/
def generateS3Key (now : Nat) (originalFilename : String) (userName : String) : String :=
  "ces-demo-audio/" ++ toString now ++ "-" ++ sanitizeFilename userName ++ "." ++
    lastDotSegment originalFilename

/-- `getFileSizeInMB` from `src/lib/s3.ts` lines 75–77, returning the
value of `(bytes / 2^20).toFixed(2)` in hundredths of a MiB
(round half up). -/
def getFileSizeInMB (bytes : Nat) : Nat :=
  (bytes * 100 + 524288) / 1048576

/-- The spec's sanitization, written independently of the code's pipeline:
collapse is expressed as a right fold that drops a dash whenever the
already-built suffix starts with one. -/
def specCollapse (l : List Char) : List Char :=
  l.foldr (fun c acc => if c = '-' && acc.head? = some '-' then acc else c :: acc) []

/-- Spec reading of the sanitizer: replace every character outside
`[A-Za-z0-9.-]` with `-`, collapse each run of consecutive `-` into one,
then lowercase the result. -/
def sanitizeSpec (s : String) : String :=
  String.mk ((specCollapse (s.data.map replaceChar)).map asciiToLower)

-- ### Lemmas about the sanitizer

theorem specCollapse_cons (c : Char) (rest : List Char) :
    specCollapse (c :: rest) =
      if c = '-' ∧ (specCollapse rest).head? = some '-' then specCollapse rest
      else c :: specCollapse rest := by
  simp only [specCollapse, List.foldr, Bool.and_eq_true, decide_eq_true_eq]

theorem collapseAux_spec (l : List Char) :
    collapseAux false l = specCollapse l ∧
    collapseAux true l =
      (if (specCollapse l).head? = some '-' then (specCollapse l).tail
       else specCollapse l) := by
  induction l with
  | nil => constructor <;> rfl
  | cons c rest ih =>
    obtain ⟨ih0, ih1⟩ := ih
    cases hS : specCollapse rest with
    | nil =>
      rw [hS] at ih0 ih1
      simp only [List.head?_nil, reduceCtorEq, if_neg, ite_false] at ih1
      by_cases hc : c = '-'
      · subst hc
        constructor <;> simp [collapseAux, ih0, ih1, specCollapse_cons, hS]
      · constructor <;> simp [collapseAux, ih0, ih1, specCollapse_cons, hS, hc]
    | cons x xs =>
      rw [hS] at ih0 ih1
      simp only [List.head?_cons] at ih1
      by_cases hc : c = '-'
      · subst hc
        by_cases hx : x = '-'
        · subst hx
          simp only [Option.some.injEq, if_pos rfl] at ih1
          constructor <;> simp [collapseAux, ih0, ih1, specCollapse_cons, hS]
        · have hx2 : ¬ (some x = some '-') := by simpa using hx
          rw [if_neg hx2] at ih1
          constructor <;>
            simp [collapseAux, ih0, ih1, specCollapse_cons, hS, hx]
      · constructor <;> simp [collapseAux, ih0, ih1, specCollapse_cons, hS, hc]

theorem sanitizeFilename_eq_sanitizeSpec (s : String) :
    sanitizeFilename s = sanitizeSpec s := by
  unfold sanitizeFilename sanitizeSpec
  rw [(collapseAux_spec (s.data.map replaceChar)).1]

/-- Characters the sanitizer's output may contain: lowercase ASCII
letters, digits, dot and dash. -/
def isLowerAllowed (c : Char) : Bool :=
  (97 ≤ c.toNat && c.toNat ≤ 122) || (48 ≤ c.toNat && c.toNat ≤ 57) ||
    c = '.' || c = '-'

/-- No two consecutive characters of the list are both `'-'`. -/
def noDoubleDash : List Char → Bool
  | [] => true
  | a :: rest => !(a = '-' && rest.head? = some '-') && noDoubleDash rest

theorem isAllowedChar_replaceChar (c : Char) :
    isAllowedChar (replaceChar c) = true := by
  unfold replaceChar
  by_cases h : isAllowedChar c = true
  · rw [if_pos h]; exact h
  · rw [if_neg h]; decide

theorem collapseAux_false_dash (rest : List Char) :
    collapseAux false ('-' :: rest) = '-' :: collapseAux true rest := by
  simp [collapseAux]

theorem collapseAux_true_dash (rest : List Char) :
    collapseAux true ('-' :: rest) = collapseAux true rest := by
  simp [collapseAux]

theorem collapseAux_cons_ne {c : Char} (h : ¬ c = '-') (b : Bool)
    (rest : List Char) :
    collapseAux b (c :: rest) = c :: collapseAux false rest := by
  cases b <;> simp [collapseAux, h]

theorem noDoubleDash_cons (a : Char) (rest : List Char) :
    noDoubleDash (a :: rest) =
      (!(a = '-' && rest.head? = some '-') && noDoubleDash rest) := rfl

theorem mem_collapseAux {c : Char} :
    ∀ (l : List Char) (b : Bool), c ∈ collapseAux b l → c ∈ l := by
  intro l
  induction l with
  | nil => intro b h; simp [collapseAux] at h
  | cons a rest ih =>
    intro b h
    by_cases ha : a = '-'
    · subst ha
      cases b with
      | true =>
        rw [collapseAux_true_dash] at h
        exact List.mem_cons_of_mem _ (ih true h)
      | false =>
        rw [collapseAux_false_dash] at h
        rcases List.mem_cons.mp h with h2 | h2
        · subst h2; exact List.mem_cons_self _ _
        · exact List.mem_cons_of_mem _ (ih true h2)
    · rw [collapseAux_cons_ne ha] at h
      rcases List.mem_cons.mp h with h2 | h2
      · subst h2; exact List.mem_cons_self _ _
      · exact List.mem_cons_of_mem _ (ih false h2)

theorem char_ofNat_toNat {n : Nat} (h1 : 65 ≤ n) (h2 : n ≤ 90) :
    (Char.ofNat (n + 32)).toNat = n + 32 := by
  interval_cases n <;> decide

theorem isLowerAllowed_asciiToLower {c : Char}
    (h : isAllowedChar c = true) : isLowerAllowed (asciiToLower c) = true := by
  unfold asciiToLower
  by_cases hup : (65 ≤ c.toNat && c.toNat ≤ 90) = true
  · rw [if_pos hup]
    simp only [Bool.and_eq_true, decide_eq_true_eq] at hup
    obtain ⟨hl, hr⟩ := hup
    unfold isLowerAllowed
    rw [char_ofNat_toNat hl hr]
    simp only [Bool.or_eq_true, Bool.and_eq_true, decide_eq_true_eq]
    left; left; left; omega
  · rw [if_neg hup]
    simp only [Bool.and_eq_true, decide_eq_true_eq, not_and, not_le] at hup
    unfold isAllowedChar at h
    unfold isLowerAllowed
    simp only [Bool.or_eq_true, Bool.and_eq_true, decide_eq_true_eq] at h ⊢
    rcases h with (((h | h) | h) | h) | h
    · exact absurd (hup h.1) (by omega)
    · left; left; left; exact h
    · left; left; right; exact h
    · left; right; exact h
    · right; exact h

theorem asciiToLower_ne_dash {c : Char} (h : ¬ c = '-') :
    ¬ asciiToLower c = '-' := by
  unfold asciiToLower
  by_cases hup : (65 ≤ c.toNat && c.toNat ≤ 90) = true
  · rw [if_pos hup]
    simp only [Bool.and_eq_true, decide_eq_true_eq] at hup
    obtain ⟨hl, hr⟩ := hup
    intro hcon
    have h2 := congrArg Char.toNat hcon
    rw [char_ofNat_toNat hl hr] at h2
    have h3 : c.toNat + 32 = 45 := h2
    omega
  · rw [if_neg hup]; exact h

theorem noDoubleDash_collapseAux (l : List Char) :
    noDoubleDash (collapseAux false l) = true ∧
    noDoubleDash (collapseAux true l) = true ∧
    ¬ (collapseAux true l).head? = some '-' := by
  induction l with
  | nil => exact ⟨rfl, rfl, by simp [collapseAux]⟩
  | cons c rest ih =>
    obtain ⟨ihf, iht, ihh⟩ := ih
    by_cases hc : c = '-'
    · subst hc
      rw [collapseAux_false_dash, collapseAux_true_dash, noDoubleDash_cons]
      refine ⟨?_, iht, ihh⟩
      simp only [Bool.and_eq_true, Bool.not_eq_true', Bool.and_eq_false_iff,
        decide_eq_false_iff_not]
      exact ⟨Or.inr ihh, iht⟩
    · rw [collapseAux_cons_ne hc, collapseAux_cons_ne hc, noDoubleDash_cons]
      refine ⟨?_, ?_, ?_⟩
      · simp only [Bool.and_eq_true, Bool.not_eq_true', Bool.and_eq_false_iff,
          decide_eq_false_iff_not]
        exact ⟨Or.inl hc, ihf⟩
      · simp only [Bool.and_eq_true, Bool.not_eq_true', Bool.and_eq_false_iff,
          decide_eq_false_iff_not]
        exact ⟨Or.inl hc, ihf⟩
      · simp only [List.head?_cons, Option.some.injEq]
        exact hc

theorem noDoubleDash_map_asciiToLower :
    ∀ l : List Char, noDoubleDash l = true →
      noDoubleDash (l.map asciiToLower) = true := by
  intro l
  induction l with
  | nil => intro _; rfl
  | cons a rest ih =>
    intro h
    rw [noDoubleDash_cons] at h
    rw [List.map_cons, noDoubleDash_cons]
    simp only [Bool.and_eq_true, Bool.not_eq_true', Bool.and_eq_false_iff,
      decide_eq_false_iff_not] at h ⊢
    obtain ⟨h1, h2⟩ := h
    refine ⟨?_, ih h2⟩
    rcases h1 with h1 | h1
    · exact Or.inl (asciiToLower_ne_dash h1)
    · right
      cases rest with
      | nil => simp
      | cons b r2 =>
        simp only [List.head?_cons, Option.some.injEq] at h1
        simp only [List.map_cons, List.head?_cons, Option.some.injEq]
        by_cases hb : b = '-'
        · exact absurd hb h1
        · exact asciiToLower_ne_dash hb

theorem isAllowedChar_of_lower {c : Char} (h : isLowerAllowed c = true) :
    isAllowedChar c = true := by
  unfold isLowerAllowed at h
  unfold isAllowedChar
  simp only [Bool.or_eq_true, Bool.and_eq_true, decide_eq_true_eq] at h ⊢
  rcases h with ((h | h) | h) | h
  · left; left; left; right; exact h
  · left; left; right; exact h
  · left; right; exact h
  · right; exact h

theorem asciiToLower_id_of_lower {c : Char} (h : isLowerAllowed c = true) :
    asciiToLower c = c := by
  unfold isLowerAllowed at h
  simp only [Bool.or_eq_true, Bool.and_eq_true, decide_eq_true_eq] at h
  unfold asciiToLower
  rw [if_neg]
  simp only [Bool.and_eq_true, decide_eq_true_eq, not_and, not_le]
  intro h65
  rcases h with ((h | h) | h) | h
  · omega
  · omega
  · subst h; exact absurd h65 (by decide)
  · subst h; exact absurd h65 (by decide)

theorem replaceChar_id_of_lower {c : Char} (h : isLowerAllowed c = true) :
    replaceChar c = c := by
  unfold replaceChar
  rw [if_pos (isAllowedChar_of_lower h)]

theorem collapseAux_id (l : List Char) (h : noDoubleDash l = true) :
    collapseAux false l = l ∧
    (¬ l.head? = some '-' → collapseAux true l = l) := by
  induction l with
  | nil => exact ⟨rfl, fun _ => rfl⟩
  | cons c rest ih =>
    rw [noDoubleDash_cons] at h
    simp only [Bool.and_eq_true, Bool.not_eq_true', Bool.and_eq_false_iff,
      decide_eq_false_iff_not] at h
    obtain ⟨h1, h2⟩ := h
    obtain ⟨ihf, iht⟩ := ih h2
    by_cases hc : c = '-'
    · subst hc
      constructor
      · rw [collapseAux_false_dash]
        have hh : ¬ rest.head? = some '-' := by
          rcases h1 with h1 | h1
          · exact absurd rfl h1
          · exact h1
        rw [iht hh]
      · intro hcon
        exact absurd rfl hcon
    · constructor
      · rw [collapseAux_cons_ne hc, ihf]
      · intro _
        rw [collapseAux_cons_ne hc, ihf]

theorem list_map_id_on {f : Char → Char} :
    ∀ l : List Char, (∀ c ∈ l, f c = c) → l.map f = l := by
  intro l
  induction l with
  | nil => intro _; rfl
  | cons a rest ih =>
    intro h
    rw [List.map_cons, h a (List.mem_cons_self a rest),
      ih (fun c hc => h c (List.mem_cons_of_mem a hc))]

theorem sanitizeFilename_chars {s : String} {c : Char}
    (h : c ∈ (sanitizeFilename s).data) : isLowerAllowed c = true := by
  unfold sanitizeFilename at h
  rcases List.mem_map.mp h with ⟨d, hd, rfl⟩
  have hd2 := mem_collapseAux _ _ hd
  rcases List.mem_map.mp hd2 with ⟨e, _, rfl⟩
  exact isLowerAllowed_asciiToLower (isAllowedChar_replaceChar e)

theorem sanitizeFilename_noDoubleDash (s : String) :
    noDoubleDash (sanitizeFilename s).data = true :=
  noDoubleDash_map_asciiToLower _ (noDoubleDash_collapseAux _).1

theorem sanitizeFilename_fixed {t : String}
    (hchars : ∀ c ∈ t.data, isLowerAllowed c = true)
    (hnd : noDoubleDash t.data = true) :
    sanitizeFilename t = t := by
  obtain ⟨l⟩ := t
  unfold sanitizeFilename
  have h1 : l.map replaceChar = l :=
    list_map_id_on l (fun c hc => replaceChar_id_of_lower (hchars c hc))
  show String.mk ((collapseAux false (l.map replaceChar)).map asciiToLower) =
    String.mk l
  rw [h1, (collapseAux_id l hnd).1,
    list_map_id_on l (fun c hc => asciiToLower_id_of_lower (hchars c hc))]

theorem sanitizeFilename_idem (s : String) :
    sanitizeFilename (sanitizeFilename s) = sanitizeFilename s :=
  sanitizeFilename_fixed (fun _ hc => sanitizeFilename_chars hc)
    (sanitizeFilename_noDoubleDash s)

/-- A `File` value from the multipart form: declared MIME type, byte
size, original filename. -/
structure FileData where
  ftype : String
  size : Nat
  fname : String
deriving DecidableEq

/-- The fields `formData.get` yields in the enhancement handlers
(`none` = the field was absent / `parseFloat` gave `NaN`). -/
structure EnhanceForm where
  name : Option String
  email : Option String
  file : Option FileData
  durationRaw : Option ℚ
deriving DecidableEq

/-- The fields of the plain-upload handler's form (no email). -/
structure PlainForm where
  name : Option String
  file : Option FileData
  durationRaw : Option ℚ
deriving DecidableEq

/-- The provider's clone response: the handler duck-types both the
camelCase and the snake_case spelling of the voice id. -/
structure CloneApiResp where
  voiceId : Option String
  voiceIdSnake : Option String
deriving DecidableEq

/-- One preview object of the provider's remix response. -/
structure RemixPreview where
  audioBase64 : Option String
  durationSecs : Option ℚ
deriving DecidableEq

/-- The provider's remix response (the `previews` array may be absent). -/
structure RemixApiResp where
  previews : Option (List RemixPreview)
deriving DecidableEq

/-- What `generateEnhancedAudio` returns: the decoded audio (tracked by
length) and the provider-reported duration. -/
structure EnhancedAudio where
  bufLen : Nat
  duration : ℚ
deriving DecidableEq

/-- The argument object of `sendSlackNotification` (`src/lib/slack.ts`);
absent optional fields are `none`. -/
structure SlackPayload where
  userName : String
  userEmail : Option String
  downloadUrl : Option String
  fileSize : Option Nat
  duration : ℚ
  timestamp : String
  rawDownloadUrl : Option String
  rawFileSize : Option Nat
  rawDuration : Option ℚ
  enhancedDownloadUrl : Option String
  enhancedFileSize : Option Nat
  enhancedDuration : Option ℚ
  error : Option String
deriving DecidableEq

/-- One collaborator call issued by a handler, in program order. -/
inductive Effect where
  | s3Put (key : String) (filename : String)
  | presign (key : String) (filename : String)
  | cloneCall
  | remixCall
  | notify (payload : SlackPayload)
  | providerDelete (voiceId : String)
deriving DecidableEq

/-- The `data` object of the enhancement handlers' 200 response. -/
structure EnhSuccessData where
  message : String
  rawDownloadUrl : String
  rawFileName : String
  rawFileSize : Nat
  enhancedDownloadUrl : Option String
  enhancedFileName : Option String
  enhancedFileSize : Option Nat
  duration : ℚ
  voiceId : Option String
deriving DecidableEq

/-- HTTP response of the enhancement handlers: 200 success JSON, or an
error JSON with a status, message and optional `details`. -/
inductive EnhResponse where
  | ok (data : EnhSuccessData)
  | err (status : Nat) (error : String) (details : Option String)
deriving DecidableEq

/-- Result of running an enhancement handler: trace of collaborator
calls, response, and the final value of the `clonedVoiceId` variable. -/
structure RunResult where
  trace : List Effect
  resp : EnhResponse
  clonedVoiceId : Option String
deriving DecidableEq

/-- The `data` object of the plain-upload handler's 200 response. -/
structure PlainSuccessData where
  message : String
  downloadUrl : String
  fileName : String
  fileSize : Nat
  duration : ℚ
deriving DecidableEq

/-- HTTP response of the plain-upload handler. -/
inductive PlainResponse where
  | ok (data : PlainSuccessData)
  | err (status : Nat) (error : String) (details : Option String)
deriving DecidableEq

/-- Result of running the plain-upload handler. -/
structure PlainResult where
  trace : List Effect
  resp : PlainResponse
deriving DecidableEq

/-- Environment and collaborator oracles for one run: `now` is
`Date.now()`, `tsStr` the formatted timestamp, `hasApiKey` whether
`ELEVENLABS_API_KEY` is set; every other field is the outcome the named
collaborator call would have (`.error msg` = the promise rejects). -/
structure World where
  now : Nat
  tsStr : String
  hasApiKey : Bool
  cloneApi : Except String CloneApiResp
  remixApi : Except String RemixApiResp
  putRaw : Except String Unit
  presignRaw : Except String String
  putEnhanced : Except String Unit
  presignEnhanced : Except String String
  slackMain : Except String Unit
  slackOnError : Except String Unit
  deleteApi : Except String Unit

/-- `s.trim().length === 0` for a present string: every character is
whitespace (an empty string is blank). -/
def isBlank (s : String) : Bool := s.data.all Char.isWhitespace

/-- JavaScript `a || b` on numbers (`0` and `NaN`-as-`none` are falsy). -/
def jsOrQ (a : Option ℚ) (b : ℚ) : ℚ :=
  match a with
  | none => b
  | some x => if x = 0 then b else x

/-- JavaScript `a || b` on optional strings (`""` is falsy). -/
def jsOrStr (a b : Option String) : Option String :=
  match a with
  | none => b
  | some s => if s = "" then b else some s

/-- The characters before the first `;`. -/
def takeUntilSemi : List Char → List Char
  | [] => []
  | c :: rest => if c = ';' then [] else c :: takeUntilSemi rest

/-- Strip surrounding whitespace from a character list. -/
def trimChars (l : List Char) : List Char :=
  ((l.dropWhile Char.isWhitespace).reverse.dropWhile Char.isWhitespace).reverse

/-- `file.type.split(";")[0].trim()`. -/
def stripMime (t : String) : String := String.mk (trimChars (takeUntilSemi t.data))

/-- `ALLOWED_MIME_TYPES` of the plain-upload handler
(`src/app/api/upload/route.ts` lines 11–18). -/
def allowedMimePlain : List String :=
  ["audio/mpeg", "audio/wav", "audio/x-wav", "audio/mp4", "audio/x-m4a",
   "audio/ogg"]

/-- `ALLOWED_MIME_TYPES` of both enhancement handlers. -/
def allowedMimeEnhance : List String :=
  ["audio/mpeg", "audio/wav", "audio/x-wav", "audio/mp4", "audio/x-m4a",
   "audio/ogg", "audio/webm", "video/mp4"]

/-- `MAX_FILE_SIZE = 10 * 1024 * 1024`. -/
def maxFileSize : Nat := 10 * 1024 * 1024

/-- `cloneVoice` from `src/lib/voice-enhancement.ts` lines 23–70: extract
`voiceId || voice_id`, throw when it is falsy, rethrow any provider
failure with a fixed prefix (the JSON dump appended to the inner message
is not modelled). -/
def cloneVoice (api : Except String CloneApiResp) : Except String String :=
  match api with
  | Except.error e => Except.error ("Failed to clone voice: " ++ e)
  | Except.ok r =>
    match jsOrStr r.voiceId r.voiceIdSnake with
    | some vid =>
      if vid = "" then
        Except.error "Failed to clone voice: Voice ID not returned from API"
      else Except.ok vid
    | none =>
      Except.error "Failed to clone voice: Voice ID not returned from API"

/-- `generateEnhancedAudio` from `src/lib/voice-enhancement.ts` lines
76–125: take the first preview, throw when previews or audio data are
missing, return the decoded audio and `durationSecs || 0` (the length of
the base64 payload stands in for the decoded buffer length). -/
def generateEnhancedAudio (api : Except String RemixApiResp) :
    Except String EnhancedAudio :=
  match api with
  | Except.error e =>
    Except.error ("Failed to generate enhanced audio: " ++ e)
  | Except.ok r =>
    match r.previews with
    | none =>
      Except.error
        "Failed to generate enhanced audio: No audio previews returned from voice remix"
    | some [] =>
      Except.error
        "Failed to generate enhanced audio: No audio previews returned from voice remix"
    | some (p :: _) =>
      match p.audioBase64 with
      | none =>
        Except.error
          "Failed to generate enhanced audio: No audio data in remix preview"
      | some b =>
        if b = "" then
          Except.error
            "Failed to generate enhanced audio: No audio data in remix preview"
        else Except.ok { bufLen := b.length, duration := jsOrQ p.durationSecs 0 }

/-- `deleteVoice` from `src/lib/voice-enhancement.ts` lines 130–138: the
provider call is wrapped in try/catch with no rethrow, so the function
resolves no matter how the call ends. -/
def deleteVoice (api : Except String Unit) : Except String Unit :=
  match api with
  | Except.ok _ => Except.ok ()
  | Except.error _ => Except.ok ()

/-- A submission that passed the enhancement handlers' validation gate. -/
structure ValidEnh where
  name : String
  email : String
  file : FileData
  baseMime : String
  duration : ℚ
deriving DecidableEq

/-- The five validation checks both enhancement handlers run, in program
order, before any collaborator call (lines 157–204 of the enhancement
document of `src/app/api/upload/route.ts`; identical in
`src/app/api/enhance/route.ts`). -/
def validateEnhance (inp : EnhanceForm) : Except EnhResponse ValidEnh :=
  match inp.name with
  | none => Except.error (EnhResponse.err 400 "Name is required" none)
  | some n =>
    if isBlank n then Except.error (EnhResponse.err 400 "Name is required" none)
    else
      match inp.email with
      | none => Except.error (EnhResponse.err 400 "Email is required" none)
      | some em =>
        if isBlank em then
          Except.error (EnhResponse.err 400 "Email is required" none)
        else
          match inp.file with
          | none => Except.error (EnhResponse.err 400 "File is required" none)
          | some f =>
            if ¬ (stripMime f.ftype ∈ allowedMimeEnhance) then
              Except.error (EnhResponse.err 400
                "Invalid file type. Please upload .mp3, .wav, .mp4, .m4a, .ogg, or .webm files"
                none)
            else if maxFileSize < f.size then
              Except.error (EnhResponse.err 400 "File size exceeds 10MB limit" none)
            else
              match inp.durationRaw with
              | none =>
                Except.error (EnhResponse.err 400
                  "Audio duration must be at least 1 minute (60 seconds)" none)
              | some d =>
                if d = 0 ∨ d < 60 then
                  Except.error (EnhResponse.err 400
                    "Audio duration must be at least 1 minute (60 seconds)" none)
                else
                  Except.ok
                    { name := n, email := em, file := f,
                      baseMime := stripMime f.ftype, duration := d }

/-- A submission that passed the plain-upload handler's validation. -/
structure ValidPlain where
  name : String
  file : FileData
  duration : ℚ
deriving DecidableEq

/-- The plain-upload handler's validation (lines 27–66 of
`src/app/api/upload/route.ts`): no email check, the MIME type is
compared verbatim (no `;codecs` stripping) against the shorter list. -/
def validatePlain (inp : PlainForm) : Except PlainResponse ValidPlain :=
  match inp.name with
  | none => Except.error (PlainResponse.err 400 "Name is required" none)
  | some n =>
    if isBlank n then Except.error (PlainResponse.err 400 "Name is required" none)
    else
      match inp.file with
      | none => Except.error (PlainResponse.err 400 "File is required" none)
      | some f =>
        if ¬ (f.ftype ∈ allowedMimePlain) then
          Except.error (PlainResponse.err 400
            "Invalid file type. Please upload .mp3, .wav, .m4a, or .ogg files" none)
        else if maxFileSize < f.size then
          Except.error (PlainResponse.err 400 "File size exceeds 10MB limit" none)
        else
          match inp.durationRaw with
          | none =>
            Except.error (PlainResponse.err 400
              "Audio duration must be at least 1 minute (60 seconds)" none)
          | some d =>
            if d = 0 ∨ d < 60 then
              Except.error (PlainResponse.err 400
                "Audio duration must be at least 1 minute (60 seconds)" none)
            else Except.ok { name := n, file := f, duration := d }

/-- `name.replace` of whitespace runs by a single dash (used to build the
cloned-voice label). -/
def dashWsAux : Bool → List Char → List Char
  | _, [] => []
  | prev, c :: rest =>
    if c.isWhitespace then
      if prev then dashWsAux true rest else '-' :: dashWsAux true rest
    else c :: dashWsAux false rest

/-- String wrapper of `dashWsAux`. -/
def dashWhitespace (s : String) : String := String.mk (dashWsAux false s.data)

/-- The cloned-voice label: display name with whitespace dashed plus the
run's `Date.now()` value. -/
def voiceNameOf (now : Nat) (name : String) : String :=
  "ces-demo-" ++ dashWhitespace name ++ "-" ++ toString now

/-- The filename under which the raw audio is stored. -/
def rawFileNameOf (now : Nat) (v : ValidEnh) : String :=
  "raw-" ++ voiceNameOf now v.name ++ "." ++ lastDotSegment v.file.fname

/-- The mutable enhancement variables of the enhancement handlers, in
the state they have after the AI stage resolves. -/
structure EnhVars where
  clonedVoiceId : Option String
  enhancedDownloadUrl : Option String
  enhancedFileName : Option String
  enhancedFileSize : Option Nat
  enhancedDuration : Option ℚ
  enhancementError : Option String
deriving DecidableEq

/-- The AI-enhancement stage of the upload-flow enhancement handler
(lines 238–277 of the enhancement document): guarded by the API key,
clone → remix → store → presign inside one try/catch whose handler
records `enhancementError` and keeps every variable assigned before the
throw. -/
def enhanceBlock (w : World) (v : ValidEnh) : List Effect × EnhVars :=
  if w.hasApiKey then
    match cloneVoice w.cloneApi with
    | Except.error e =>
      ([Effect.cloneCall],
       { clonedVoiceId := none, enhancedDownloadUrl := none,
         enhancedFileName := none, enhancedFileSize := none,
         enhancedDuration := none,
         enhancementError := some ("ElevenLabs Error: " ++ e) })
    | Except.ok vid =>
      match generateEnhancedAudio w.remixApi with
      | Except.error e =>
        ([Effect.cloneCall, Effect.remixCall],
         { clonedVoiceId := some vid, enhancedDownloadUrl := none,
           enhancedFileName := none, enhancedFileSize := none,
           enhancedDuration := none,
           enhancementError := some ("ElevenLabs Error: " ++ e) })
      | Except.ok res =>
        let enhName := "enhanced-" ++ voiceNameOf w.now v.name ++ ".mp3"
        let enhKey := generateS3Key w.now enhName v.name
        match w.putEnhanced with
        | Except.error e =>
          ([Effect.cloneCall, Effect.remixCall, Effect.s3Put enhKey enhName],
           { clonedVoiceId := some vid, enhancedDownloadUrl := none,
             enhancedFileName := some enhName, enhancedFileSize := none,
             enhancedDuration := some res.duration,
             enhancementError := some ("ElevenLabs Error: " ++ e) })
        | Except.ok _ =>
          match w.presignEnhanced with
          | Except.error e =>
            ([Effect.cloneCall, Effect.remixCall, Effect.s3Put enhKey enhName,
              Effect.presign enhKey enhName],
             { clonedVoiceId := some vid, enhancedDownloadUrl := none,
               enhancedFileName := some enhName, enhancedFileSize := none,
               enhancedDuration := some res.duration,
               enhancementError := some ("ElevenLabs Error: " ++ e) })
          | Except.ok url =>
            ([Effect.cloneCall, Effect.remixCall, Effect.s3Put enhKey enhName,
              Effect.presign enhKey enhName],
             { clonedVoiceId := some vid, enhancedDownloadUrl := some url,
               enhancedFileName := some enhName,
               enhancedFileSize := some (getFileSizeInMB res.bufLen),
               enhancedDuration := some res.duration,
               enhancementError := none })
  else
    ([],
     { clonedVoiceId := none, enhancedDownloadUrl := none,
       enhancedFileName := none, enhancedFileSize := none,
       enhancedDuration := none,
       enhancementError := some "ElevenLabs API key not configured" })

/-- The main notification payload of the upload-flow enhancement handler
(lines 280–292): `duration` is `enhancedDuration || duration`, and the
`error` field carries `enhancementError` when present. -/
def uploadNotifyPayload (w : World) (v : ValidEnh) (rawUrl : String)
    (ev : EnhVars) : SlackPayload :=
  { userName := v.name, userEmail := some v.email,
    downloadUrl := none, fileSize := none,
    duration := jsOrQ ev.enhancedDuration v.duration,
    timestamp := w.tsStr,
    rawDownloadUrl := some rawUrl,
    rawFileSize := some (getFileSizeInMB v.file.size),
    rawDuration := some v.duration,
    enhancedDownloadUrl := ev.enhancedDownloadUrl,
    enhancedFileSize := ev.enhancedFileSize,
    enhancedDuration := ev.enhancedDuration,
    error := ev.enhancementError }

/-- The best-effort error notification the upload-flow handler's outer
catch sends (lines 336–355). -/
def uploadErrorPayload (w : World) (v : ValidEnh) (emsg : String) : SlackPayload :=
  { userName := v.name, userEmail := some v.email,
    downloadUrl := none, fileSize := none,
    duration := 0, timestamp := w.tsStr,
    rawDownloadUrl := none, rawFileSize := none, rawDuration := none,
    enhancedDownloadUrl := none, enhancedFileSize := none,
    enhancedDuration := none,
    error := some ("Critical Error: " ++ emsg) }

/-- The 200 `data` object of the upload-flow enhancement handler
(lines 306–321). -/
def uploadSuccessData (v : ValidEnh) (rawUrl rawName : String)
    (ev : EnhVars) : EnhSuccessData :=
  { message :=
      match ev.enhancedDownloadUrl with
      | some _ => "Recording submitted successfully! AI voice model created."
      | none => "Recording submitted successfully! Your audio has been saved.",
    rawDownloadUrl := rawUrl, rawFileName := rawName,
    rawFileSize := getFileSizeInMB v.file.size,
    enhancedDownloadUrl := ev.enhancedDownloadUrl,
    enhancedFileName := ev.enhancedFileName,
    enhancedFileSize := ev.enhancedFileSize,
    duration := jsOrQ ev.enhancedDuration v.duration,
    voiceId := ev.clonedVoiceId }

/-- The outer catch of the upload-flow enhancement handler (lines
322–364): delete the cloned voice when one exists (that deletion is
itself try/caught), send a best-effort error notification when name and
email are truthy, answer 500 with the error's message as `details`. -/
def uploadOuterCatch (w : World) (v : ValidEnh) (cv : Option String)
    (tr : List Effect) (emsg : String) : RunResult :=
  let tr2 := tr ++ (match cv with
    | some vid => [Effect.providerDelete vid]
    | none => [])
  let tr3 :=
    if v.name = "" ∨ v.email = "" then tr2
    else tr2 ++ [Effect.notify (uploadErrorPayload w v emsg)]
  { trace := tr3,
    resp := EnhResponse.err 500 "Failed to process audio. Please try again."
      (some emsg),
    clonedVoiceId := cv }

/-- The upload-flow enhancement handler: the second document of
`src/app/api/upload/route.ts` (raw storage first, then the guarded AI
stage, one notification, cleanup, 200). `form` is the outcome of
`request.formData()`. -/
def enhanceUploadPOST (w : World) (form : Except String EnhanceForm) : RunResult :=
  match form with
  | Except.error e =>
    { trace := [],
      resp := EnhResponse.err 500 "Failed to process audio. Please try again."
        (some e),
      clonedVoiceId := none }
  | Except.ok inp =>
    match validateEnhance inp with
    | Except.error r => { trace := [], resp := r, clonedVoiceId := none }
    | Except.ok v =>
      let rawName := rawFileNameOf w.now v
      let rawKey := generateS3Key w.now rawName v.name
      match w.putRaw with
      | Except.error e =>
        uploadOuterCatch w v none [Effect.s3Put rawKey rawName] e
      | Except.ok _ =>
        match w.presignRaw with
        | Except.error e =>
          uploadOuterCatch w v none
            [Effect.s3Put rawKey rawName, Effect.presign rawKey rawName] e
        | Except.ok rawUrl =>
          let blk := enhanceBlock w v
          let ev := blk.2
          let tr := Effect.s3Put rawKey rawName :: Effect.presign rawKey rawName ::
            blk.1 ++ [Effect.notify (uploadNotifyPayload w v rawUrl ev)]
          match w.slackMain with
          | Except.error e => uploadOuterCatch w v ev.clonedVoiceId tr e
          | Except.ok _ =>
            match ev.clonedVoiceId with
            | some vid =>
              match deleteVoice w.deleteApi with
              | Except.error e =>
                uploadOuterCatch w v (some vid)
                  (tr ++ [Effect.providerDelete vid]) e
              | Except.ok _ =>
                { trace := tr ++ [Effect.providerDelete vid],
                  resp := EnhResponse.ok (uploadSuccessData v rawUrl rawName ev),
                  clonedVoiceId := some vid }
            | none =>
              { trace := tr,
                resp := EnhResponse.ok (uploadSuccessData v rawUrl rawName ev),
                clonedVoiceId := none }

/-- The inner try/catch of `/api/enhance` (lines 131–158 of
`src/app/api/enhance/route.ts`): remix → store → presign; its catch only
logs — no `enhancementError` variable exists in this handler, so the
vars record none. Cloning happened before this block, so `clonedVoiceId`
is fixed. -/
def enhanceRouteInner (w : World) (v : ValidEnh) (vid : String) :
    List Effect × EnhVars :=
  match generateEnhancedAudio w.remixApi with
  | Except.error _ =>
    ([Effect.remixCall],
     { clonedVoiceId := some vid, enhancedDownloadUrl := none,
       enhancedFileName := none, enhancedFileSize := none,
       enhancedDuration := none, enhancementError := none })
  | Except.ok res =>
    let enhName := "enhanced-" ++ voiceNameOf w.now v.name ++ ".mp3"
    let enhKey := generateS3Key w.now enhName v.name
    match w.putEnhanced with
    | Except.error _ =>
      ([Effect.remixCall, Effect.s3Put enhKey enhName],
       { clonedVoiceId := some vid, enhancedDownloadUrl := none,
         enhancedFileName := some enhName, enhancedFileSize := none,
         enhancedDuration := some res.duration, enhancementError := none })
    | Except.ok _ =>
      match w.presignEnhanced with
      | Except.error _ =>
        ([Effect.remixCall, Effect.s3Put enhKey enhName,
          Effect.presign enhKey enhName],
         { clonedVoiceId := some vid, enhancedDownloadUrl := none,
           enhancedFileName := some enhName, enhancedFileSize := none,
           enhancedDuration := some res.duration, enhancementError := none })
      | Except.ok url =>
        ([Effect.remixCall, Effect.s3Put enhKey enhName,
          Effect.presign enhKey enhName],
         { clonedVoiceId := some vid, enhancedDownloadUrl := some url,
           enhancedFileName := some enhName,
           enhancedFileSize := some (getFileSizeInMB res.bufLen),
           enhancedDuration := some res.duration, enhancementError := none })

/-- The notification `/api/enhance` sends (lines 161–172): same shape as
the upload flow's but with no `error` field. -/
def enhanceNotifyPayload (w : World) (v : ValidEnh) (rawUrl : String)
    (ev : EnhVars) : SlackPayload :=
  { userName := v.name, userEmail := some v.email,
    downloadUrl := none, fileSize := none,
    duration := jsOrQ ev.enhancedDuration v.duration,
    timestamp := w.tsStr,
    rawDownloadUrl := some rawUrl,
    rawFileSize := some (getFileSizeInMB v.file.size),
    rawDuration := some v.duration,
    enhancedDownloadUrl := ev.enhancedDownloadUrl,
    enhancedFileSize := ev.enhancedFileSize,
    enhancedDuration := ev.enhancedDuration,
    error := none }

/-- The 200 `data` object of `/api/enhance` (lines 186–201). -/
def enhanceSuccessData (v : ValidEnh) (rawUrl rawName : String)
    (ev : EnhVars) : EnhSuccessData :=
  { message :=
      match ev.enhancedDownloadUrl with
      | some _ => "Voice enhanced successfully with AI! Both raw and enhanced versions saved."
      | none => "Raw audio saved successfully. AI enhancement failed, but your audio is safe.",
    rawDownloadUrl := rawUrl, rawFileName := rawName,
    rawFileSize := getFileSizeInMB v.file.size,
    enhancedDownloadUrl := ev.enhancedDownloadUrl,
    enhancedFileName := ev.enhancedFileName,
    enhancedFileSize := ev.enhancedFileSize,
    duration := jsOrQ ev.enhancedDuration v.duration,
    voiceId := ev.clonedVoiceId }

/-- The outer catch of `/api/enhance` (lines 202–222): delete the cloned
voice when one exists (try/caught), no notification, 500. -/
def enhanceOuterCatch (cv : Option String) (tr : List Effect)
    (emsg : String) : RunResult :=
  let tr2 := tr ++ (match cv with
    | some vid => [Effect.providerDelete vid]
    | none => [])
  { trace := tr2,
    resp := EnhResponse.err 500 "Failed to enhance voice with AI. Please try again."
      (some emsg),
    clonedVoiceId := cv }

/-- The `/api/enhance` handler (`src/app/api/enhance/route.ts`): after
validation it requires the API key (500 if absent), then clones the
voice FIRST, stores the raw audio second, runs the inner enhancement
block, notifies, deletes the cloned voice, and answers 200. -/
def enhanceRoutePOST (w : World) (form : Except String EnhanceForm) : RunResult :=
  match form with
  | Except.error e =>
    { trace := [],
      resp := EnhResponse.err 500 "Failed to enhance voice with AI. Please try again."
        (some e),
      clonedVoiceId := none }
  | Except.ok inp =>
    match validateEnhance inp with
    | Except.error r => { trace := [], resp := r, clonedVoiceId := none }
    | Except.ok v =>
      if w.hasApiKey then
        match cloneVoice w.cloneApi with
        | Except.error e => enhanceOuterCatch none [Effect.cloneCall] e
        | Except.ok vid =>
          let rawName := rawFileNameOf w.now v
          let rawKey := generateS3Key w.now rawName v.name
          match w.putRaw with
          | Except.error e =>
            enhanceOuterCatch (some vid)
              [Effect.cloneCall, Effect.s3Put rawKey rawName] e
          | Except.ok _ =>
            match w.presignRaw with
            | Except.error e =>
              enhanceOuterCatch (some vid)
                [Effect.cloneCall, Effect.s3Put rawKey rawName,
                 Effect.presign rawKey rawName] e
            | Except.ok rawUrl =>
              let blk := enhanceRouteInner w v vid
              let ev := blk.2
              let tr := Effect.cloneCall :: Effect.s3Put rawKey rawName ::
                Effect.presign rawKey rawName :: blk.1 ++
                [Effect.notify (enhanceNotifyPayload w v rawUrl ev)]
              match w.slackMain with
              | Except.error e => enhanceOuterCatch (some vid) tr e
              | Except.ok _ =>
                match deleteVoice w.deleteApi with
                | Except.error e =>
                  enhanceOuterCatch (some vid)
                    (tr ++ [Effect.providerDelete vid]) e
                | Except.ok _ =>
                  { trace := tr ++ [Effect.providerDelete vid],
                    resp := EnhResponse.ok (enhanceSuccessData v rawUrl rawName ev),
                    clonedVoiceId := some vid }
      else
        { trace := [],
          resp := EnhResponse.err 500
            "AI voice enhancement not configured. Please add API key to environment variables."
            none,
          clonedVoiceId := none }

/-- The notification of the plain-upload handler (lines 90–96 of
`src/app/api/upload/route.ts`). -/
def plainNotifyPayload (w : World) (v : ValidPlain) (url : String) : SlackPayload :=
  { userName := v.name, userEmail := none,
    downloadUrl := some url,
    fileSize := some (getFileSizeInMB v.file.size),
    duration := v.duration, timestamp := w.tsStr,
    rawDownloadUrl := none, rawFileSize := none, rawDuration := none,
    enhancedDownloadUrl := none, enhancedFileSize := none,
    enhancedDuration := none, error := none }

/-- The plain-upload handler: the first document of
`src/app/api/upload/route.ts` — validate, store, presign, notify, 200;
any rejection of an awaited call lands in the single catch and yields a
500. -/
def plainUploadPOST (w : World) (form : Except String PlainForm) : PlainResult :=
  match form with
  | Except.error e =>
    { trace := [],
      resp := PlainResponse.err 500 "Failed to upload file. Please try again."
        (some e) }
  | Except.ok inp =>
    match validatePlain inp with
    | Except.error r => { trace := [], resp := r }
    | Except.ok v =>
      let key := generateS3Key w.now v.file.fname v.name
      match w.putRaw with
      | Except.error e =>
        { trace := [Effect.s3Put key v.file.fname],
          resp := PlainResponse.err 500 "Failed to upload file. Please try again."
            (some e) }
      | Except.ok _ =>
        match w.presignRaw with
        | Except.error e =>
          { trace := [Effect.s3Put key v.file.fname,
              Effect.presign key v.file.fname],
            resp := PlainResponse.err 500 "Failed to upload file. Please try again."
              (some e) }
        | Except.ok url =>
          let tr := [Effect.s3Put key v.file.fname,
            Effect.presign key v.file.fname,
            Effect.notify (plainNotifyPayload w v url)]
          match w.slackMain with
          | Except.error e =>
            { trace := tr,
              resp := PlainResponse.err 500 "Failed to upload file. Please try again."
                (some e) }
          | Except.ok _ =>
            { trace := tr,
              resp := PlainResponse.ok
                { message := "File uploaded successfully",
                  downloadUrl := url, fileName := v.file.fname,
                  fileSize := getFileSizeInMB v.file.size,
                  duration := v.duration } }

/-- `deleteVoice` resolves no matter how the provider call ends. -/
theorem deleteVoice_ok (api : Except String Unit) :
    deleteVoice api = Except.ok () := by
  cases api <;> rfl

/-- A well-formed 2 MiB WAV submission used as concrete test vector. -/
def sampleFile : FileData :=
  { ftype := "audio/wav", size := 2097152, fname := "sample.wav" }

/-- A valid enhancement-flow form. -/
def sampleForm : EnhanceForm :=
  { name := some "Ada Lovelace", email := some "ada@example.com",
    file := some sampleFile, durationRaw := some 65 }

/-- A world where every collaborator call succeeds and the API key is
configured; the remix returns one preview of duration 90 s. -/
def baseWorld : World :=
  { now := 1700000000000, tsStr := "Jan 1, 2026, 9:00 AM",
    hasApiKey := true,
    cloneApi := Except.ok { voiceId := some "voice123", voiceIdSnake := none },
    remixApi := Except.ok
      { previews := some [{ audioBase64 := some "QUJDRA", durationSecs := some 90 }] },
    putRaw := Except.ok (), presignRaw := Except.ok "https://s3/raw",
    putEnhanced := Except.ok (), presignEnhanced := Except.ok "https://s3/enh",
    slackMain := Except.ok (), slackOnError := Except.ok (),
    deleteApi := Except.ok () }

/-- C8: the storage key is the timestamp plus the sanitized display name
(and the original filename's extension), and the code's sanitizer agrees
with the spec's description: replace every character outside
`[A-Za-z0-9.-]` with `-`, collapse each run of `-` to one, lowercase. -/
theorem C8_storage_key_derivation (now : Nat) (fn u : String) :
    generateS3Key now fn u =
      "ces-demo-audio/" ++ toString now ++ "-" ++ sanitizeFilename u ++ "." ++
        lastDotSegment fn ∧
    sanitizeFilename u = sanitizeSpec u :=
  ⟨rfl, sanitizeFilename_eq_sanitizeSpec u⟩

/-- C9: `sanitizeFilename` is idempotent, and its output contains only
lowercase ASCII letters, digits, `.` and `-`, with no two consecutive
`-` characters. -/
theorem C9_sanitizeFilename_idempotent_charset (s : String) :
    sanitizeFilename (sanitizeFilename s) = sanitizeFilename s ∧
    (∀ c ∈ (sanitizeFilename s).data,
      (97 ≤ c.toNat ∧ c.toNat ≤ 122) ∨ (48 ≤ c.toNat ∧ c.toNat ≤ 57) ∨
        c = '.' ∨ c = '-') ∧
    noDoubleDash (sanitizeFilename s).data = true := by
  refine ⟨sanitizeFilename_idem s, ?_, sanitizeFilename_noDoubleDash s⟩
  intro c hc
  have h := sanitizeFilename_chars hc
  unfold isLowerAllowed at h
  simp only [Bool.or_eq_true, Bool.and_eq_true, decide_eq_true_eq] at h
  tauto

/-- Concrete instance of C9: idempotence on "Ada  Lovelace!!" and the
character property for its first output character. -/
theorem C9_witness :
    sanitizeFilename (sanitizeFilename "Ada  Lovelace!!") =
      sanitizeFilename "Ada  Lovelace!!" ∧
    ((97 ≤ 'a'.toNat ∧ 'a'.toNat ≤ 122) ∨ (48 ≤ 'a'.toNat ∧ 'a'.toNat ≤ 57) ∨
      'a' = '.' ∨ 'a' = '-') :=
  ⟨(C9_sanitizeFilename_idempotent_charset "Ada  Lovelace!!").1,
   (C9_sanitizeFilename_idempotent_charset "Ada  Lovelace!!").2.1 'a' (by decide)⟩

/-- A validation rejection leaves the upload-flow handler with an empty
trace and the rejection response. -/
theorem enhanceUploadPOST_rejects {inp : EnhanceForm} {r : EnhResponse}
    (h : validateEnhance inp = Except.error r) (w : World) :
    enhanceUploadPOST w (Except.ok inp) =
      { trace := [], resp := r, clonedVoiceId := none } := by
  simp only [enhanceUploadPOST, h]

/-- A validation rejection leaves `/api/enhance` with an empty trace and
the rejection response. -/
theorem enhanceRoutePOST_rejects {inp : EnhanceForm} {r : EnhResponse}
    (h : validateEnhance inp = Except.error r) (w : World) :
    enhanceRoutePOST w (Except.ok inp) =
      { trace := [], resp := r, clonedVoiceId := none } := by
  simp only [enhanceRoutePOST, h]

/-- A validation rejection leaves the plain-upload handler with an empty
trace and the rejection response. -/
theorem plainUploadPOST_rejects {inp : PlainForm} {r : PlainResponse}
    (h : validatePlain inp = Except.error r) (w : World) :
    plainUploadPOST w (Except.ok inp) = { trace := [], resp := r } := by
  simp only [plainUploadPOST, h]

/-- Shape of the upload-flow handler's run when raw storage, raw
presigning and the notification all succeed: a 200 response built from
the enhancement variables, the documented trace, and the block's voice
id as final `clonedVoiceId`. -/
theorem enhanceUploadPOST_healthy {w : World} {inp : EnhanceForm}
    {v : ValidEnh} {url : String}
    (hval : validateEnhance inp = Except.ok v)
    (hput : w.putRaw = Except.ok ())
    (hps : w.presignRaw = Except.ok url)
    (hslack : w.slackMain = Except.ok ()) :
    (enhanceUploadPOST w (Except.ok inp)).resp =
      EnhResponse.ok
        (uploadSuccessData v url (rawFileNameOf w.now v) (enhanceBlock w v).2) ∧
    (enhanceUploadPOST w (Except.ok inp)).trace =
      Effect.s3Put (generateS3Key w.now (rawFileNameOf w.now v) v.name)
          (rawFileNameOf w.now v) ::
        Effect.presign (generateS3Key w.now (rawFileNameOf w.now v) v.name)
          (rawFileNameOf w.now v) ::
        ((enhanceBlock w v).1 ++
          [Effect.notify (uploadNotifyPayload w v url (enhanceBlock w v).2)] ++
          (match (enhanceBlock w v).2.clonedVoiceId with
           | some vid => [Effect.providerDelete vid]
           | none => [])) ∧
    (enhanceUploadPOST w (Except.ok inp)).clonedVoiceId =
      (enhanceBlock w v).2.clonedVoiceId := by
  simp only [enhanceUploadPOST, hval, hput, hps, hslack]
  rcases hblk : enhanceBlock w v with ⟨btr, ev⟩
  cases hcv : ev.clonedVoiceId <;>
    simp [hblk, hcv, deleteVoice_ok, List.append_assoc]

/-- Shape of the `/api/enhance` run when the key is present, cloning,
raw storage, raw presigning and the notification all succeed. -/
theorem enhanceRoutePOST_healthy {w : World} {inp : EnhanceForm}
    {v : ValidEnh} {vid url : String}
    (hval : validateEnhance inp = Except.ok v)
    (hkey : w.hasApiKey = true)
    (hclone : cloneVoice w.cloneApi = Except.ok vid)
    (hput : w.putRaw = Except.ok ())
    (hps : w.presignRaw = Except.ok url)
    (hslack : w.slackMain = Except.ok ()) :
    (enhanceRoutePOST w (Except.ok inp)).resp =
      EnhResponse.ok
        (enhanceSuccessData v url (rawFileNameOf w.now v)
          (enhanceRouteInner w v vid).2) ∧
    (enhanceRoutePOST w (Except.ok inp)).trace =
      Effect.cloneCall ::
        Effect.s3Put (generateS3Key w.now (rawFileNameOf w.now v) v.name)
          (rawFileNameOf w.now v) ::
        Effect.presign (generateS3Key w.now (rawFileNameOf w.now v) v.name)
          (rawFileNameOf w.now v) ::
        ((enhanceRouteInner w v vid).1 ++
          [Effect.notify
            (enhanceNotifyPayload w v url (enhanceRouteInner w v vid).2)] ++
          [Effect.providerDelete vid]) ∧
    (enhanceRoutePOST w (Except.ok inp)).clonedVoiceId = some vid := by
  simp only [enhanceRoutePOST, hval, hkey, hclone, if_true]
  rcases hblk : enhanceRouteInner w v vid with ⟨btr, ev⟩
  simp [hblk, hput, hps, hslack, deleteVoice_ok, List.append_assoc]

/-- The `error` fields of the notifications in a trace, in order. -/
def notifyErrors (tr : List Effect) : List (Option String) :=
  tr.filterMap (fun e =>
    match e with
    | Effect.notify p => some p.error
    | _ => none)

/-- The notification payloads in a trace, in order. -/
def notifyPayloads (tr : List Effect) : List SlackPayload :=
  tr.filterMap (fun e =>
    match e with
    | Effect.notify p => some p
    | _ => none)

/-- Whether a response is a 200 success. -/
def isOkResp : EnhResponse → Bool
  | EnhResponse.ok _ => true
  | EnhResponse.err _ _ _ => false

/-- The raw download URL of a 200 response. -/
def okRawUrl : EnhResponse → Option String
  | EnhResponse.ok d => some d.rawDownloadUrl
  | EnhResponse.err _ _ _ => none

/-- The enhanced download URL of a 200 response. -/
def okEnhancedUrl : EnhResponse → Option String
  | EnhResponse.ok d => d.enhancedDownloadUrl
  | EnhResponse.err _ _ _ => none

/-- The `duration` field of a 200 response. -/
def okDuration : EnhResponse → Option ℚ
  | EnhResponse.ok d => some d.duration
  | EnhResponse.err _ _ _ => none

/-- The upload-flow enhancement block issues no notification itself. -/
theorem enhanceBlock_no_notify (w : World) (v : ValidEnh) :
    notifyErrors (enhanceBlock w v).1 = [] := by
  unfold enhanceBlock
  cases hk : w.hasApiKey
  · simp [notifyErrors]
  · cases hc : cloneVoice w.cloneApi
    · simp [notifyErrors]
    · cases hr : generateEnhancedAudio w.remixApi
      · simp [notifyErrors]
      · cases hp : w.putEnhanced
        · simp [notifyErrors]
        · cases hq : w.presignEnhanced <;> simp [notifyErrors]

/-- The enhancement variables after the upload-flow block: the voice id
is present exactly when cloning succeeded (with the key configured), the
stored duration is the remix result's whenever the remix succeeded, and
`enhancementError` reflects the first failure. -/
theorem enhanceBlock_vars (w : World) (v : ValidEnh) :
    ((enhanceBlock w v).2.clonedVoiceId =
      (if w.hasApiKey then
        match cloneVoice w.cloneApi with
        | Except.ok vid => some vid
        | Except.error _ => none
       else none)) ∧
    ((enhanceBlock w v).2.enhancedDuration =
      (if w.hasApiKey then
        match cloneVoice w.cloneApi, generateEnhancedAudio w.remixApi with
        | Except.ok _, Except.ok res => some res.duration
        | _, _ => none
       else none)) ∧
    ((enhanceBlock w v).2.enhancementError =
      (if w.hasApiKey then
        match cloneVoice w.cloneApi, generateEnhancedAudio w.remixApi,
            w.putEnhanced, w.presignEnhanced with
        | Except.error e, _, _, _ => some ("ElevenLabs Error: " ++ e)
        | Except.ok _, Except.error e, _, _ => some ("ElevenLabs Error: " ++ e)
        | Except.ok _, Except.ok _, Except.error e, _ =>
          some ("ElevenLabs Error: " ++ e)
        | Except.ok _, Except.ok _, Except.ok _, Except.error e =>
          some ("ElevenLabs Error: " ++ e)
        | Except.ok _, Except.ok _, Except.ok _, Except.ok _ => none
       else some "ElevenLabs API key not configured")) := by
  unfold enhanceBlock
  cases hk : w.hasApiKey
  · simp
  · cases hc : cloneVoice w.cloneApi
    · simp
    · cases hr : generateEnhancedAudio w.remixApi
      · simp
      · cases hp : w.putEnhanced
        · simp
        · cases hq : w.presignEnhanced <;> simp

/-- A string that is not blank is in particular not empty (JS truthy). -/
theorem ne_empty_of_not_blank {s : String} (h : isBlank s = false) :
    ¬ s = "" := by
  intro he
  subst he
  exact absurd h (by decide)

/-- Inversion of a successful validation: every check passed and the
validated fields are the submitted ones. -/
theorem validateEnhance_ok_inv {inp : EnhanceForm} {v : ValidEnh}
    (h : validateEnhance inp = Except.ok v) :
    inp.name = some v.name ∧ isBlank v.name = false ∧
    inp.email = some v.email ∧ isBlank v.email = false ∧
    inp.file = some v.file ∧
    stripMime v.file.ftype ∈ allowedMimeEnhance ∧
    ¬ maxFileSize < v.file.size ∧
    inp.durationRaw = some v.duration ∧
    ¬ (v.duration = 0 ∨ v.duration < 60) := by
  unfold validateEnhance at h
  repeat' split at h
  any_goals exact Except.noConfusion h
  injection h with h2
  subst h2
  simp_all

/-- C2: every run of either enhancement handler that ends with a cloned
voice handle recorded has issued a deletion request for exactly that
handle, on every path (the notifier throwing included), and the deletion
helper itself resolves no matter how the provider's delete call ends, so
a deletion failure never aborts a run. -/
theorem C2_cloned_voice_always_deleted :
    (∀ api : Except String Unit, deleteVoice api = Except.ok ()) ∧
    (∀ (w : World) (form : Except String EnhanceForm) (vid : String),
      (enhanceUploadPOST w form).clonedVoiceId = some vid →
        Effect.providerDelete vid ∈ (enhanceUploadPOST w form).trace) ∧
    (∀ (w : World) (form : Except String EnhanceForm) (vid : String),
      (enhanceRoutePOST w form).clonedVoiceId = some vid →
        Effect.providerDelete vid ∈ (enhanceRoutePOST w form).trace) := by
  refine ⟨deleteVoice_ok, ?_, ?_⟩
  · intro w form vid h
    rcases form with e | inp
    · simp [enhanceUploadPOST] at h
    cases hval : validateEnhance inp with
    | error r =>
      rw [enhanceUploadPOST_rejects hval] at h
      simp at h
    | ok v =>
      simp only [enhanceUploadPOST, hval] at h ⊢
      cases hput : w.putRaw with
      | error e =>
        simp only [hput] at h
        simp [uploadOuterCatch] at h
      | ok u =>
        simp only [hput] at h
        cases hps : w.presignRaw with
        | error e =>
          simp only [hps] at h
          simp [uploadOuterCatch] at h
        | ok url =>
          simp only [hps] at h
          rcases hblk : enhanceBlock w v with ⟨btr, ev⟩
          simp only [hblk] at h ⊢
          cases hsl : w.slackMain with
          | error e =>
            simp only [hsl] at h
            simp only [uploadOuterCatch] at h
            simp [uploadOuterCatch, h]
            by_cases hne : v.name = "" ∨ v.email = "" <;> simp [hne]
          | ok u2 =>
            simp only [hsl] at h
            cases hcv : ev.clonedVoiceId with
            | none =>
              simp only [hcv] at h
              simp at h
            | some vid2 =>
              simp only [hcv, deleteVoice_ok] at h
              simp at h
              subst h
              simp [hcv, deleteVoice_ok]
  · intro w form vid h
    rcases form with e | inp
    · simp [enhanceRoutePOST] at h
    cases hval : validateEnhance inp with
    | error r =>
      rw [enhanceRoutePOST_rejects hval] at h
      simp at h
    | ok v =>
      simp only [enhanceRoutePOST, hval] at h ⊢
      cases hkey : w.hasApiKey with
      | false =>
        simp only [hkey] at h
        simp at h
      | true =>
        simp only [hkey, if_true] at h ⊢
        cases hclone : cloneVoice w.cloneApi with
        | error e =>
          simp only [hclone] at h
          simp [enhanceOuterCatch] at h
        | ok vid2 =>
          simp only [hclone] at h ⊢
          cases hput : w.putRaw with
          | error e =>
            simp only [hput] at h
            simp only [enhanceOuterCatch] at h
            simp at h
            subst h
            simp [hput, enhanceOuterCatch]
          | ok u =>
            simp only [hput] at h
            cases hps : w.presignRaw with
            | error e =>
              simp only [hps] at h
              simp only [enhanceOuterCatch] at h
              simp at h
              subst h
              simp [enhanceOuterCatch]
            | ok url =>
              simp only [hps] at h
              rcases hblk : enhanceRouteInner w v vid2 with ⟨btr, ev⟩
              simp only [hblk] at h ⊢
              cases hsl : w.slackMain with
              | error e =>
                simp only [hsl] at h
                simp only [enhanceOuterCatch] at h
                simp at h
                subst h
                simp [enhanceOuterCatch]
              | ok u2 =>
                simp only [hsl, deleteVoice_ok] at h
                simp at h
                subst h
                simp [deleteVoice_ok]

/-- Concrete instance of C2: the full-success run records handle
voice123 and its trace contains the corresponding deletion request. -/
theorem C2_witness :
    Effect.providerDelete "voice123" ∈
      (enhanceUploadPOST baseWorld (Except.ok sampleForm)).trace :=
  C2_cloned_voice_always_deleted.2.1 baseWorld (Except.ok sampleForm)
    "voice123" (by rfl)

/-- `baseWorld` with the provider's clone call rejecting. -/
def cloneFailWorld : World := { baseWorld with cloneApi := Except.error "network error" }

/-- `baseWorld` with the provider's remix call rejecting. -/
def remixFailWorld : World := { baseWorld with remixApi := Except.error "remix failed" }

/-- `baseWorld` without the ELEVENLABS_API_KEY. -/
def noKeyWorld : World := { baseWorld with hasApiKey := false }

/-- `noKeyWorld` with the notifier throwing. -/
def slackFailWorld : World := { noKeyWorld with slackMain := Except.error "slack down" }

/-- `baseWorld` where storing the enhanced audio fails. -/
def putEnhFailWorld : World := { baseWorld with putEnhanced := Except.error "S3 write failed" }

/-- C1: in `/api/enhance` the clone call is issued BEFORE the raw audio
is stored: when cloning fails on a valid submission the whole trace is
the single clone call — the raw audio is never stored at all, and the
handler answers 500 — and even on full success the trace starts with the
clone call, not the raw-storage put. -/
theorem C1_enhance_route_clone_precedes_raw_storage :
    (enhanceRoutePOST cloneFailWorld (Except.ok sampleForm)).trace =
      [Effect.cloneCall] ∧
    (enhanceRoutePOST cloneFailWorld (Except.ok sampleForm)).resp =
      EnhResponse.err 500 "Failed to enhance voice with AI. Please try again."
        (some "Failed to clone voice: network error") ∧
    (enhanceRoutePOST baseWorld (Except.ok sampleForm)).trace.head? =
      some Effect.cloneCall :=
  ⟨rfl, rfl, rfl⟩

/-- C3 counterexample: in `/api/enhance`, a remix failure on a valid
submission degrades to raw-only success, but the single notification
carries NO error annotation (`error = none`) — the failure is not
forwarded — and a cloning failure is not even caught locally: the run
ends in a 500 instead of a success response. -/
theorem C3_counterexample :
    notifyErrors (enhanceRoutePOST remixFailWorld (Except.ok sampleForm)).trace =
      [none] ∧
    okEnhancedUrl (enhanceRoutePOST remixFailWorld (Except.ok sampleForm)).resp =
      none ∧
    isOkResp (enhanceRoutePOST remixFailWorld (Except.ok sampleForm)).resp =
      true ∧
    isOkResp (enhanceRoutePOST cloneFailWorld (Except.ok sampleForm)).resp =
      false :=
  ⟨rfl, rfl, rfl, rfl⟩

/-- C4 counterexample: with no AI-provider credential, `/api/enhance`
rejects the valid submission with a 500 and performs no collaborator
call at all — no raw artifact, no notification, no success response. -/
theorem C4_counterexample :
    enhanceRoutePOST noKeyWorld (Except.ok sampleForm) =
      { trace := [],
        resp := EnhResponse.err 500
          "AI voice enhancement not configured. Please add API key to environment variables."
          none,
        clonedVoiceId := none } :=
  rfl

/-- C6 counterexample: two worlds that differ only in the notifier's
outcome: with the notifier healthy the upload-flow handler answers
success, with the notifier throwing the same run answers 500 — the
notification failure changes the HTTP outcome determined by the prior
stages. -/
theorem C6_counterexample :
    isOkResp (enhanceUploadPOST noKeyWorld (Except.ok sampleForm)).resp = true ∧
    (enhanceUploadPOST slackFailWorld (Except.ok sampleForm)).resp =
      EnhResponse.err 500 "Failed to process audio. Please try again."
        (some "slack down") :=
  ⟨rfl, rfl⟩

/-- C10 counterexample: when the remix succeeds (provider duration 90 s)
but storing the enhanced audio fails, the enhancement has failed (no
enhanced URL, an enhancementError is notified) yet the response duration
is the provider's 90, not the client-reported 65. -/
theorem C10_counterexample :
    okDuration (enhanceUploadPOST putEnhFailWorld (Except.ok sampleForm)).resp =
      some 90 ∧
    okEnhancedUrl (enhanceUploadPOST putEnhFailWorld (Except.ok sampleForm)).resp =
      none ∧
    notifyErrors (enhanceUploadPOST putEnhFailWorld (Except.ok sampleForm)).trace =
      [some "ElevenLabs Error: S3 write failed"] ∧
    sampleForm.durationRaw = some 65 :=
  ⟨rfl, rfl, rfl, rfl⟩

theorem notifyErrors_nil : notifyErrors [] = [] := rfl

theorem notifyErrors_append (a b : List Effect) :
    notifyErrors (a ++ b) = notifyErrors a ++ notifyErrors b :=
  List.filterMap_append a b _

theorem notifyErrors_cons_s3Put (k f : String) (tr : List Effect) :
    notifyErrors (Effect.s3Put k f :: tr) = notifyErrors tr := rfl

theorem notifyErrors_cons_presign (k f : String) (tr : List Effect) :
    notifyErrors (Effect.presign k f :: tr) = notifyErrors tr := rfl

theorem notifyErrors_cons_clone (tr : List Effect) :
    notifyErrors (Effect.cloneCall :: tr) = notifyErrors tr := rfl

theorem notifyErrors_cons_remix (tr : List Effect) :
    notifyErrors (Effect.remixCall :: tr) = notifyErrors tr := rfl

theorem notifyErrors_cons_delete (vid : String) (tr : List Effect) :
    notifyErrors (Effect.providerDelete vid :: tr) = notifyErrors tr := rfl

theorem notifyErrors_cons_notify (p : SlackPayload) (tr : List Effect) :
    notifyErrors (Effect.notify p :: tr) = p.error :: notifyErrors tr := rfl

theorem notifyPayloads_nil : notifyPayloads [] = [] := rfl

theorem notifyPayloads_append (a b : List Effect) :
    notifyPayloads (a ++ b) = notifyPayloads a ++ notifyPayloads b :=
  List.filterMap_append a b _

theorem notifyPayloads_cons_s3Put (k f : String) (tr : List Effect) :
    notifyPayloads (Effect.s3Put k f :: tr) = notifyPayloads tr := rfl

theorem notifyPayloads_cons_presign (k f : String) (tr : List Effect) :
    notifyPayloads (Effect.presign k f :: tr) = notifyPayloads tr := rfl

theorem notifyPayloads_cons_clone (tr : List Effect) :
    notifyPayloads (Effect.cloneCall :: tr) = notifyPayloads tr := rfl

theorem notifyPayloads_cons_remix (tr : List Effect) :
    notifyPayloads (Effect.remixCall :: tr) = notifyPayloads tr := rfl

theorem notifyPayloads_cons_delete (vid : String) (tr : List Effect) :
    notifyPayloads (Effect.providerDelete vid :: tr) = notifyPayloads tr := rfl

theorem notifyPayloads_cons_notify (p : SlackPayload) (tr : List Effect) :
    notifyPayloads (Effect.notify p :: tr) = p :: notifyPayloads tr := rfl

/-- The upload-flow block issues no notification (payload version). -/
theorem enhanceBlock_no_notifyPayloads (w : World) (v : ValidEnh) :
    notifyPayloads (enhanceBlock w v).1 = [] := by
  unfold enhanceBlock
  cases hk : w.hasApiKey
  · simp [notifyPayloads]
  · cases hc : cloneVoice w.cloneApi
    · simp [notifyPayloads]
    · cases hr : generateEnhancedAudio w.remixApi
      · simp [notifyPayloads]
      · cases hp : w.putEnhanced
        · simp [notifyPayloads]
        · cases hq : w.presignEnhanced <;> simp [notifyPayloads]

/-- The enhancement variables when the key is absent. -/
def noKeyVars : EnhVars :=
  { clonedVoiceId := none, enhancedDownloadUrl := none,
    enhancedFileName := none, enhancedFileSize := none,
    enhancedDuration := none,
    enhancementError := some "ElevenLabs API key not configured" }

/-- With no API key the enhancement block is skipped with the
`not configured` annotation. -/
theorem enhanceBlock_noKey {w : World} (v : ValidEnh)
    (hkey : w.hasApiKey = false) :
    enhanceBlock w v = ([], noKeyVars) := by
  simp [enhanceBlock, hkey, noKeyVars]

/-- After successful validation the upload-flow handler never answers
400: every later outcome is a 200 success or a 500. -/
theorem enhanceUploadPOST_no_400 {inp : EnhanceForm} {v : ValidEnh}
    (hval : validateEnhance inp = Except.ok v) (w : World) (m : String)
    (d : Option String) :
    ¬ (enhanceUploadPOST w (Except.ok inp)).resp = EnhResponse.err 400 m d := by
  simp only [enhanceUploadPOST, hval]
  cases hput : w.putRaw with
  | error e => simp [uploadOuterCatch]
  | ok u =>
    cases hps : w.presignRaw with
    | error e => simp [uploadOuterCatch]
    | ok url =>
      rcases hblk : enhanceBlock w v with ⟨btr, ev⟩
      simp only [hblk]
      cases hsl : w.slackMain with
      | error e => simp [uploadOuterCatch]
      | ok u2 =>
        cases hcv : ev.clonedVoiceId with
        | none => simp
        | some vid => simp [deleteVoice_ok]

/-- After successful validation `/api/enhance` never answers 400. -/
theorem enhanceRoutePOST_no_400 {inp : EnhanceForm} {v : ValidEnh}
    (hval : validateEnhance inp = Except.ok v) (w : World) (m : String)
    (d : Option String) :
    ¬ (enhanceRoutePOST w (Except.ok inp)).resp = EnhResponse.err 400 m d := by
  simp only [enhanceRoutePOST, hval]
  cases hkey : w.hasApiKey with
  | false => simp
  | true =>
    simp only [if_true]
    cases hclone : cloneVoice w.cloneApi with
    | error e => simp [enhanceOuterCatch]
    | ok vid =>
      cases hput : w.putRaw with
      | error e => simp [enhanceOuterCatch]
      | ok u =>
        cases hps : w.presignRaw with
        | error e => simp [enhanceOuterCatch]
        | ok url =>
          rcases hblk : enhanceRouteInner w v vid with ⟨btr, ev⟩
          simp only [hblk]
          cases hsl : w.slackMain with
          | error e => simp [enhanceOuterCatch]
          | ok u2 => simp [deleteVoice_ok]

/-- After successful validation the plain-upload handler never answers
400. -/
theorem plainUploadPOST_no_400 {inp : PlainForm} {v : ValidPlain}
    (hval : validatePlain inp = Except.ok v) (w : World) (m : String)
    (d : Option String) :
    ¬ (plainUploadPOST w (Except.ok inp)).resp = PlainResponse.err 400 m d := by
  simp only [plainUploadPOST, hval]
  cases hput : w.putRaw with
  | error e => simp
  | ok u =>
    cases hps : w.presignRaw with
    | error e => simp
    | ok url =>
      cases hsl : w.slackMain with
      | error e => simp
      | ok u2 => simp

/-- C3 (as amended): in the upload-flow enhancement handler every
failure of cloning, remixing or enhanced-audio storage is caught at the
stage boundary: whenever raw storage, raw presigning and the notifier
succeed, the run answers 200 referencing the raw artifact no matter how
the AI stage ended, exactly one notification is sent and it carries the
block's `enhancementError`; in particular a clone failure is recorded as
the human-readable `ElevenLabs Error: …` string with no voice handle
retained. -/
theorem C3_enhancement_failure_degrades {w : World} {inp : EnhanceForm}
    {v : ValidEnh} {url : String}
    (hval : validateEnhance inp = Except.ok v)
    (hput : w.putRaw = Except.ok ())
    (hps : w.presignRaw = Except.ok url)
    (hslack : w.slackMain = Except.ok ()) :
    isOkResp (enhanceUploadPOST w (Except.ok inp)).resp = true ∧
    okRawUrl (enhanceUploadPOST w (Except.ok inp)).resp = some url ∧
    notifyErrors (enhanceUploadPOST w (Except.ok inp)).trace =
      [(enhanceBlock w v).2.enhancementError] ∧
    (∀ e, w.hasApiKey = true → cloneVoice w.cloneApi = Except.error e →
      (enhanceBlock w v).2.enhancementError =
        some ("ElevenLabs Error: " ++ e) ∧
      (enhanceBlock w v).2.clonedVoiceId = none) := by
  obtain ⟨hresp, htrace, hcv⟩ := enhanceUploadPOST_healthy hval hput hps hslack
  refine ⟨?_, ?_, ?_, ?_⟩
  · rw [hresp]; rfl
  · rw [hresp]; rfl
  · rw [htrace]
    rw [notifyErrors_cons_s3Put, notifyErrors_cons_presign,
      notifyErrors_append, notifyErrors_append, enhanceBlock_no_notify,
      notifyErrors_cons_notify, notifyErrors_nil]
    rcases hm : (enhanceBlock w v).2.clonedVoiceId with _ | vid <;>
      simp [notifyErrors, uploadNotifyPayload]
  · intro e hkey hce
    constructor
    · have hchar := (enhanceBlock_vars w v).2.2
      rw [hchar, hkey, hce]
      simp
    · have hchar := (enhanceBlock_vars w v).1
      rw [hchar, hkey, hce]
      simp

/-- C4 (as amended): in the upload-flow enhancement handler, a valid
submission with no AI-provider credential produces exactly the raw
artifact (one put, one presign), one notification whose error field is
the `not configured` annotation, and a 200 success whose enhanced
fields and voice id are absent and whose duration is the
client-reported one; no clone call is ever issued. -/
theorem C4_no_key_raw_only {w : World} {inp : EnhanceForm} {v : ValidEnh}
    {url : String}
    (hval : validateEnhance inp = Except.ok v)
    (hkey : w.hasApiKey = false)
    (hput : w.putRaw = Except.ok ())
    (hps : w.presignRaw = Except.ok url)
    (hslack : w.slackMain = Except.ok ()) :
    enhanceUploadPOST w (Except.ok inp) =
      { trace := [
          Effect.s3Put (generateS3Key w.now (rawFileNameOf w.now v) v.name)
            (rawFileNameOf w.now v),
          Effect.presign (generateS3Key w.now (rawFileNameOf w.now v) v.name)
            (rawFileNameOf w.now v),
          Effect.notify (uploadNotifyPayload w v url noKeyVars)],
        resp := EnhResponse.ok
          (uploadSuccessData v url (rawFileNameOf w.now v) noKeyVars),
        clonedVoiceId := none } ∧
    (uploadNotifyPayload w v url noKeyVars).error =
      some "ElevenLabs API key not configured" ∧
    (uploadSuccessData v url (rawFileNameOf w.now v) noKeyVars).enhancedDownloadUrl =
      none ∧
    (uploadSuccessData v url (rawFileNameOf w.now v) noKeyVars).voiceId = none ∧
    (uploadSuccessData v url (rawFileNameOf w.now v) noKeyVars).duration =
      v.duration := by
  refine ⟨?_, rfl, rfl, rfl, rfl⟩
  simp only [enhanceUploadPOST, hval, hput, hps, hslack,
    enhanceBlock_noKey v hkey]
  simp [noKeyVars]

/-- C6 (as amended): a notifier failure after raw storage is NOT
log-only: it propagates to the outer catch, which answers 500 with the
notifier's message as details (in the upload flow additionally deleting
any cloned voice and attempting a best-effort error notification whose
error is `Critical Error: …`; in `/api/enhance` deleting the cloned
voice) — the caller does not receive the success the prior stages had
produced. -/
theorem C6_notifier_failure_escalates {w : World} {inp : EnhanceForm}
    {v : ValidEnh} {url e : String}
    (hval : validateEnhance inp = Except.ok v)
    (hput : w.putRaw = Except.ok ())
    (hps : w.presignRaw = Except.ok url)
    (hsl : w.slackMain = Except.error e) :
    (enhanceUploadPOST w (Except.ok inp)).resp =
      EnhResponse.err 500 "Failed to process audio. Please try again."
        (some e) ∧
    Effect.notify (uploadErrorPayload w v e) ∈
      (enhanceUploadPOST w (Except.ok inp)).trace ∧
    (uploadErrorPayload w v e).error = some ("Critical Error: " ++ e) ∧
    (∀ vid, w.hasApiKey = true → cloneVoice w.cloneApi = Except.ok vid →
      (enhanceRoutePOST w (Except.ok inp)).resp =
        EnhResponse.err 500 "Failed to enhance voice with AI. Please try again."
          (some e) ∧
      Effect.providerDelete vid ∈ (enhanceRoutePOST w (Except.ok inp)).trace) := by
  have hne : ¬ (v.name = "" ∨ v.email = "") := by
    obtain ⟨_, hbn, _, hbe, _⟩ := validateEnhance_ok_inv hval
    rintro (h1 | h2)
    · exact ne_empty_of_not_blank hbn h1
    · exact ne_empty_of_not_blank hbe h2
  refine ⟨?_, ?_, rfl, ?_⟩
  · simp only [enhanceUploadPOST, hval, hput, hps, hsl]
    simp [uploadOuterCatch]
  · simp only [enhanceUploadPOST, hval, hput, hps, hsl]
    simp [uploadOuterCatch, hne]
  · intro vid hkey hclone
    constructor
    · simp only [enhanceRoutePOST, hval, hkey, if_true, hclone, hput, hps, hsl]
      simp [enhanceOuterCatch]
    · simp only [enhanceRoutePOST, hval, hkey, if_true, hclone, hput, hps, hsl]
      simp [enhanceOuterCatch]

/-- C10 (as amended): in the upload-flow enhancement handler the
response duration is the provider-reported remix duration whenever the
remix call succeeded with a nonzero duration — even if storing or
presigning the enhanced audio failed afterwards — and it falls back to
the client-reported duration exactly when the stage was skipped (no
key), cloning or remixing failed, or the provider duration was zero;
the single notification carries the same duration value. -/
theorem C10_duration_source {w : World} {inp : EnhanceForm} {v : ValidEnh}
    {url : String}
    (hval : validateEnhance inp = Except.ok v)
    (hput : w.putRaw = Except.ok ())
    (hps : w.presignRaw = Except.ok url)
    (hslack : w.slackMain = Except.ok ()) :
    (w.hasApiKey = false →
      okDuration (enhanceUploadPOST w (Except.ok inp)).resp = some v.duration) ∧
    (∀ e, w.hasApiKey = true → cloneVoice w.cloneApi = Except.error e →
      okDuration (enhanceUploadPOST w (Except.ok inp)).resp = some v.duration) ∧
    (∀ vid e, w.hasApiKey = true → cloneVoice w.cloneApi = Except.ok vid →
      generateEnhancedAudio w.remixApi = Except.error e →
      okDuration (enhanceUploadPOST w (Except.ok inp)).resp = some v.duration) ∧
    (∀ vid res, w.hasApiKey = true → cloneVoice w.cloneApi = Except.ok vid →
      generateEnhancedAudio w.remixApi = Except.ok res → res.duration = 0 →
      okDuration (enhanceUploadPOST w (Except.ok inp)).resp = some v.duration) ∧
    (∀ vid res, w.hasApiKey = true → cloneVoice w.cloneApi = Except.ok vid →
      generateEnhancedAudio w.remixApi = Except.ok res → ¬ res.duration = 0 →
      okDuration (enhanceUploadPOST w (Except.ok inp)).resp = some res.duration ∧
      (notifyPayloads (enhanceUploadPOST w (Except.ok inp)).trace).map
        SlackPayload.duration = [res.duration]) := by
  obtain ⟨hresp, htrace, hcv⟩ := enhanceUploadPOST_healthy hval hput hps hslack
  have hdur := (enhanceBlock_vars w v).2.1
  refine ⟨?_, ?_, ?_, ?_, ?_⟩
  · intro hkey
    rw [hresp]
    show some (jsOrQ (enhanceBlock w v).2.enhancedDuration v.duration) = _
    rw [hdur, hkey]
    simp [jsOrQ]
  · intro e hkey hce
    rw [hresp]
    show some (jsOrQ (enhanceBlock w v).2.enhancedDuration v.duration) = _
    rw [hdur, hkey, hce]
    simp [jsOrQ]
  · intro vid e hkey hcl hre
    rw [hresp]
    show some (jsOrQ (enhanceBlock w v).2.enhancedDuration v.duration) = _
    rw [hdur, hkey, hcl, hre]
    simp [jsOrQ]
  · intro vid res hkey hcl hre hz
    rw [hresp]
    show some (jsOrQ (enhanceBlock w v).2.enhancedDuration v.duration) = _
    rw [hdur, hkey, hcl, hre]
    simp [jsOrQ, hz]
  · intro vid res hkey hcl hre hz
    constructor
    · rw [hresp]
      show some (jsOrQ (enhanceBlock w v).2.enhancedDuration v.duration) = _
      rw [hdur, hkey, hcl, hre]
      simp [jsOrQ, hz]
    · rw [htrace]
      rw [notifyPayloads_cons_s3Put, notifyPayloads_cons_presign,
        notifyPayloads_append, notifyPayloads_append,
        enhanceBlock_no_notifyPayloads, notifyPayloads_cons_notify,
        notifyPayloads_nil]
      rcases hm : (enhanceBlock w v).2.clonedVoiceId with _ | vid2 <;>
        simp [notifyPayloads, uploadNotifyPayload, hdur, hkey, hcl, hre,
          jsOrQ, hz]

/-- C7 (as amended): for an otherwise-valid submission, the two
enhancement handlers reject with the InvalidFileType 400 exactly when
the declared MIME type with its `;codecs` suffix stripped is outside
their eight-entry allow-list; the plain-upload handler compares the
declared type VERBATIM (no stripping) against its six-entry allow-list. -/
theorem C7_mime_allow_lists (w : World) (n em fn mime : String) (sz : Nat)
    (d : ℚ) (hn : isBlank n = false) (he : isBlank em = false)
    (hsz : ¬ maxFileSize < sz) (hd : ¬ (d = 0 ∨ d < 60)) :
    ((enhanceUploadPOST w (Except.ok
        (EnhanceForm.mk (some n) (some em) (some (FileData.mk mime sz fn))
          (some d)))).resp =
      EnhResponse.err 400
        "Invalid file type. Please upload .mp3, .wav, .mp4, .m4a, .ogg, or .webm files"
        none ↔
      ¬ stripMime mime ∈
        ["audio/mpeg", "audio/wav", "audio/x-wav", "audio/mp4", "audio/x-m4a",
         "audio/ogg", "audio/webm", "video/mp4"]) ∧
    ((enhanceRoutePOST w (Except.ok
        (EnhanceForm.mk (some n) (some em) (some (FileData.mk mime sz fn))
          (some d)))).resp =
      EnhResponse.err 400
        "Invalid file type. Please upload .mp3, .wav, .mp4, .m4a, .ogg, or .webm files"
        none ↔
      ¬ stripMime mime ∈
        ["audio/mpeg", "audio/wav", "audio/x-wav", "audio/mp4", "audio/x-m4a",
         "audio/ogg", "audio/webm", "video/mp4"]) ∧
    ((plainUploadPOST w (Except.ok
        (PlainForm.mk (some n) (some (FileData.mk mime sz fn)) (some d)))).resp =
      PlainResponse.err 400
        "Invalid file type. Please upload .mp3, .wav, .m4a, or .ogg files"
        none ↔
      ¬ mime ∈
        ["audio/mpeg", "audio/wav", "audio/x-wav", "audio/mp4", "audio/x-m4a",
         "audio/ogg"]) := by
  refine ⟨?_, ?_, ?_⟩
  · by_cases hm : stripMime mime ∈ allowedMimeEnhance
    · have hval : validateEnhance
          (EnhanceForm.mk (some n) (some em) (some (FileData.mk mime sz fn))
            (some d)) =
          Except.ok (ValidEnh.mk n em (FileData.mk mime sz fn)
            (stripMime mime) d) := by
        simp [validateEnhance, hn, he, hm, hsz, hd]
      exact iff_of_false (enhanceUploadPOST_no_400 hval w _ _)
        (not_not_intro hm)
    · have hval : validateEnhance
          (EnhanceForm.mk (some n) (some em) (some (FileData.mk mime sz fn))
            (some d)) =
          Except.error (EnhResponse.err 400
            "Invalid file type. Please upload .mp3, .wav, .mp4, .m4a, .ogg, or .webm files"
            none) := by
        simp [validateEnhance, hn, he, hm]
      exact iff_of_true (by rw [enhanceUploadPOST_rejects hval w]) hm
  · by_cases hm : stripMime mime ∈ allowedMimeEnhance
    · have hval : validateEnhance
          (EnhanceForm.mk (some n) (some em) (some (FileData.mk mime sz fn))
            (some d)) =
          Except.ok (ValidEnh.mk n em (FileData.mk mime sz fn)
            (stripMime mime) d) := by
        simp [validateEnhance, hn, he, hm, hsz, hd]
      exact iff_of_false (enhanceRoutePOST_no_400 hval w _ _)
        (not_not_intro hm)
    · have hval : validateEnhance
          (EnhanceForm.mk (some n) (some em) (some (FileData.mk mime sz fn))
            (some d)) =
          Except.error (EnhResponse.err 400
            "Invalid file type. Please upload .mp3, .wav, .mp4, .m4a, .ogg, or .webm files"
            none) := by
        simp [validateEnhance, hn, he, hm]
      exact iff_of_true (by rw [enhanceRoutePOST_rejects hval w]) hm
  · by_cases hm : mime ∈ allowedMimePlain
    · have hval : validatePlain
          (PlainForm.mk (some n) (some (FileData.mk mime sz fn)) (some d)) =
          Except.ok (ValidPlain.mk n (FileData.mk mime sz fn) d) := by
        simp [validatePlain, hn, hm, hsz, hd]
      exact iff_of_false (plainUploadPOST_no_400 hval w _ _)
        (not_not_intro hm)
    · have hval : validatePlain
          (PlainForm.mk (some n) (some (FileData.mk mime sz fn)) (some d)) =
          Except.error (PlainResponse.err 400
            "Invalid file type. Please upload .mp3, .wav, .m4a, or .ogg files"
            none) := by
        simp [validatePlain, hn, hm]
      exact iff_of_true (by rw [plainUploadPOST_rejects hval w]) hm

/-- A plain-upload form whose declared MIME type carries a `;codecs`
parameter: its stripped form is allow-listed. -/
def codecsForm : PlainForm :=
  { name := some "Ada",
    file := some { ftype := "audio/mpeg;codecs=mp3", size := 1000, fname := "a.mp3" },
    durationRaw := some 65 }

/-- C7 counterexample: the plain-upload handler does NOT strip the
`;codecs` suffix: a declared type whose stripped form is allow-listed
(`audio/mpeg`) is rejected with the InvalidFileType 400 before any
collaborator call. -/
theorem C7_counterexample :
    stripMime "audio/mpeg;codecs=mp3" = "audio/mpeg" ∧
    "audio/mpeg" ∈ allowedMimePlain ∧
    plainUploadPOST baseWorld (Except.ok codecsForm) =
      { trace := [],
        resp := PlainResponse.err 400
          "Invalid file type. Please upload .mp3, .wav, .m4a, or .ogg files"
          none } :=
  ⟨rfl, by decide, rfl⟩

/-- C5: a submission violating any validation rule is rejected with a
400 carrying that rule's message, and the rejection happens with an
empty trace — no storage, AI-provider or notifier call is issued, for
every collaborator behaviour (the world is universally quantified). -/
theorem C5_validation_no_side_effects :
    (∀ (w : World) (inp : EnhanceForm) (r : EnhResponse),
      validateEnhance inp = Except.error r →
        enhanceUploadPOST w (Except.ok inp) =
          { trace := [], resp := r, clonedVoiceId := none } ∧
        enhanceRoutePOST w (Except.ok inp) =
          { trace := [], resp := r, clonedVoiceId := none }) ∧
    (∀ (w : World) (inp : PlainForm) (r : PlainResponse),
      validatePlain inp = Except.error r →
        plainUploadPOST w (Except.ok inp) = { trace := [], resp := r }) ∧
    (∀ inp : EnhanceForm, inp.name = none →
      validateEnhance inp =
        Except.error (EnhResponse.err 400 "Name is required" none)) ∧
    (∀ (inp : EnhanceForm) n, inp.name = some n → isBlank n = true →
      validateEnhance inp =
        Except.error (EnhResponse.err 400 "Name is required" none)) ∧
    (∀ (inp : EnhanceForm) n, inp.name = some n → isBlank n = false →
      inp.email = none →
      validateEnhance inp =
        Except.error (EnhResponse.err 400 "Email is required" none)) ∧
    (∀ (inp : EnhanceForm) n em, inp.name = some n → isBlank n = false →
      inp.email = some em → isBlank em = true →
      validateEnhance inp =
        Except.error (EnhResponse.err 400 "Email is required" none)) ∧
    (∀ (inp : EnhanceForm) n em, inp.name = some n → isBlank n = false →
      inp.email = some em → isBlank em = false → inp.file = none →
      validateEnhance inp =
        Except.error (EnhResponse.err 400 "File is required" none)) ∧
    (∀ (inp : EnhanceForm) n em f, inp.name = some n → isBlank n = false →
      inp.email = some em → isBlank em = false → inp.file = some f →
      ¬ stripMime f.ftype ∈ allowedMimeEnhance →
      validateEnhance inp =
        Except.error (EnhResponse.err 400
          "Invalid file type. Please upload .mp3, .wav, .mp4, .m4a, .ogg, or .webm files"
          none)) ∧
    (∀ (inp : EnhanceForm) n em f, inp.name = some n → isBlank n = false →
      inp.email = some em → isBlank em = false → inp.file = some f →
      stripMime f.ftype ∈ allowedMimeEnhance → maxFileSize < f.size →
      validateEnhance inp =
        Except.error (EnhResponse.err 400 "File size exceeds 10MB limit" none)) ∧
    (∀ (inp : EnhanceForm) n em f, inp.name = some n → isBlank n = false →
      inp.email = some em → isBlank em = false → inp.file = some f →
      stripMime f.ftype ∈ allowedMimeEnhance → ¬ maxFileSize < f.size →
      inp.durationRaw = none →
      validateEnhance inp =
        Except.error (EnhResponse.err 400
          "Audio duration must be at least 1 minute (60 seconds)" none)) ∧
    (∀ (inp : EnhanceForm) n em f d, inp.name = some n → isBlank n = false →
      inp.email = some em → isBlank em = false → inp.file = some f →
      stripMime f.ftype ∈ allowedMimeEnhance → ¬ maxFileSize < f.size →
      inp.durationRaw = some d → d < 60 →
      validateEnhance inp =
        Except.error (EnhResponse.err 400
          "Audio duration must be at least 1 minute (60 seconds)" none)) := by
  refine ⟨?_, ?_, ?_, ?_, ?_, ?_, ?_, ?_, ?_, ?_, ?_⟩
  · intro w inp r h
    exact ⟨enhanceUploadPOST_rejects h w, enhanceRoutePOST_rejects h w⟩
  · intro w inp r h
    exact plainUploadPOST_rejects h w
  · intro inp h
    simp [validateEnhance, h]
  · intro inp n h1 h2
    simp [validateEnhance, h1, h2]
  · intro inp n h1 h2 h3
    simp [validateEnhance, h1, h2, h3]
  · intro inp n em h1 h2 h3 h4
    simp [validateEnhance, h1, h2, h3, h4]
  · intro inp n em h1 h2 h3 h4 h5
    simp [validateEnhance, h1, h2, h3, h4, h5]
  · intro inp n em f h1 h2 h3 h4 h5 h6
    simp [validateEnhance, h1, h2, h3, h4, h5, h6]
  · intro inp n em f h1 h2 h3 h4 h5 h6 h7
    simp [validateEnhance, h1, h2, h3, h4, h5, h6, h7]
  · intro inp n em f h1 h2 h3 h4 h5 h6 h7 h8
    simp [validateEnhance, h1, h2, h3, h4, h5, h6, h7, h8]
  · intro inp n em f d h1 h2 h3 h4 h5 h6 h7 h8 h9
    simp [validateEnhance, h1, h2, h3, h4, h5, h6, h7, h8, h9]

/-- The validated form corresponding to `sampleForm`. -/
def sampleValid : ValidEnh :=
  { name := "Ada Lovelace", email := "ada@example.com", file := sampleFile,
    baseMime := "audio/wav", duration := 65 }

/-- An enhancement form with a whitespace-only name. -/
def blankNameForm : EnhanceForm :=
  { name := some "   ", email := some "ada@example.com",
    file := some sampleFile, durationRaw := some 65 }

/-- Concrete instance of C3: with the enhanced-audio storage failing,
the upload-flow run still answers success and the one notification
carries the block's enhancement error. -/
theorem C3_witness :
    isOkResp (enhanceUploadPOST putEnhFailWorld (Except.ok sampleForm)).resp =
      true ∧
    notifyErrors (enhanceUploadPOST putEnhFailWorld (Except.ok sampleForm)).trace =
      [(enhanceBlock putEnhFailWorld sampleValid).2.enhancementError] :=
  have h := @C3_enhancement_failure_degrades putEnhFailWorld sampleForm
    sampleValid "https://s3/raw" rfl rfl rfl rfl
  ⟨h.1, h.2.2.1⟩

/-- Concrete instance of C4 (amended): the no-key world produces exactly
raw put, raw presign, one annotated notification and a raw-only 200. -/
theorem C4_witness :
    enhanceUploadPOST noKeyWorld (Except.ok sampleForm) =
      { trace := [
          Effect.s3Put
            (generateS3Key noKeyWorld.now (rawFileNameOf noKeyWorld.now sampleValid)
              sampleValid.name)
            (rawFileNameOf noKeyWorld.now sampleValid),
          Effect.presign
            (generateS3Key noKeyWorld.now (rawFileNameOf noKeyWorld.now sampleValid)
              sampleValid.name)
            (rawFileNameOf noKeyWorld.now sampleValid),
          Effect.notify
            (uploadNotifyPayload noKeyWorld sampleValid "https://s3/raw" noKeyVars)],
        resp := EnhResponse.ok
          (uploadSuccessData sampleValid "https://s3/raw"
            (rawFileNameOf noKeyWorld.now sampleValid) noKeyVars),
        clonedVoiceId := none } :=
  (@C4_no_key_raw_only noKeyWorld sampleForm sampleValid "https://s3/raw"
    rfl rfl rfl rfl rfl).1

/-- Concrete instance of C5: a whitespace-only name is rejected with the
name message and an empty trace. -/
theorem C5_witness :
    validateEnhance blankNameForm =
      Except.error (EnhResponse.err 400 "Name is required" none) ∧
    enhanceUploadPOST baseWorld (Except.ok blankNameForm) =
      { trace := [],
        resp := EnhResponse.err 400 "Name is required" none,
        clonedVoiceId := none } := by
  have h4 := C5_validation_no_side_effects.2.2.2.1 blankNameForm "   " rfl
    (by rfl)
  exact ⟨h4,
    (C5_validation_no_side_effects.1 baseWorld blankNameForm _ h4).1⟩

/-- Concrete instance of C6 (amended): the notifier throwing turns the
run into a 500 with the notifier's message as details. -/
theorem C6_witness :
    (enhanceUploadPOST slackFailWorld (Except.ok sampleForm)).resp =
      EnhResponse.err 500 "Failed to process audio. Please try again."
        (some "slack down") :=
  (@C6_notifier_failure_escalates slackFailWorld sampleForm sampleValid
    "https://s3/raw" "slack down" rfl rfl rfl rfl).1

/-- Concrete instance of C7 (amended): `text/plain` is rejected by the
upload-flow enhancement handler with the InvalidFileType 400. -/
theorem C7_witness :
    (enhanceUploadPOST baseWorld (Except.ok
        (EnhanceForm.mk (some "Ada") (some "ada@example.com")
          (some (FileData.mk "text/plain" 1000 "a.bin")) (some 65)))).resp =
      EnhResponse.err 400
        "Invalid file type. Please upload .mp3, .wav, .mp4, .m4a, .ogg, or .webm files"
        none :=
  (C7_mime_allow_lists baseWorld "Ada" "ada@example.com" "a.bin" "text/plain"
    1000 65 rfl rfl (by decide) (by decide)).1.mpr (by decide)

/-- Concrete instance of C10 (amended): with a successful 90 s remix the
response duration is 90. -/
theorem C10_witness :
    okDuration (enhanceUploadPOST baseWorld (Except.ok sampleForm)).resp =
      some (90 : ℚ) :=
  ((@C10_duration_source baseWorld sampleForm sampleValid "https://s3/raw"
      rfl rfl rfl rfl).2.2.2.2 "voice123" (EnhancedAudio.mk 6 90) rfl rfl rfl
    (by decide)).1
